import Mathlib

/-!
# Verification of kaguya `state.hpp` (quick2d-engine, `src/lua-support/kaguya/state.hpp`)

A shallow embedding of the `kaguya::State` Lua-VM wrapper and the
definitions surrounding it (allocator callback, error-handler registry,
stack guard, garbage-collector control surface, script running).

The Lua evaluation stack is modelled as a `List LuaValue` with the top of
the stack at the END of the list (`push` is append).  The outcomes of the
external Lua C API calls that compile and run chunks (`luaL_loadstring`,
`luaL_loadfile`, `lua_pcall`) are supplied as oracle parameters
(`CompileOutcome`, `PCallOutcome`), while their documented stack effects
are modelled faithfully.  The compile-time constant `LUA_VERSION_NUM` is a
`Nat` parameter named `ver` wherever an `#if LUA_VERSION_NUM >= 502`
appears in the source.

Handlers registered in the error-handler registry are modelled as data
(`Handler`); running a handler yields the list of lines it writes to the
standard error stream.
-/

namespace Kaguya

/-- A value on the Lua evaluation stack.  `chunk envid` is a compiled chunk
whose visible global namespace (its `_ENV` upvalue / function environment)
is the table with identity `envid`. -/
inductive LuaValue where
  | nil
  | chunk (envid : Nat)
  | table (id : Nat)
  | errmsg (msg : String)
  | libval (name : String)
deriving DecidableEq, Repr

/-- A panic handler installed with `lua_atpanic`. -/
inductive PanicHandler where
  | default_panicfn
  | other (id : Nat)
deriving DecidableEq, Repr

/-- An error handler registered in the per-VM registry.  `stderror_out` is
the default handler from `State::stderror_out`; `custom` is any
user-supplied handler, identified by a tag. -/
inductive Handler where
  | stderror_out
  | custom (id : Nat)
deriving DecidableEq, Repr

/-- Running a handler on `(status, message)` yields the lines it writes to
the standard error stream.  `State::stderror_out` does
`std::cerr << message << std::endl`: the literal message plus a newline.
A custom handler is external code; it writes nothing to stderr in this
model. -/
def Handler.run : Handler → Nat → String → List String
  | .stderror_out, _, message => [message ++ "\n"]
  | .custom _, _, _ => []

/-- The per-VM handler registry of `ErrorHandler::instance()`: an
association from VM identity to the (at most one) registered handler. -/
abbrev Registry := List (Nat × Handler)

/-- The state of one Lua VM (`lua_State`).  `id` is the VM identity (the
`lua_State*` pointer value used as registry key); `stack` is the shared
evaluation stack, top at the end; `globalEnv` is the identity of the true
global table; the remaining fields model the panic handler, whether
`lua_close` has been called, and the collector control state visible
through `lua_gc`. -/
structure LuaVM where
  id : Nat
  stack : List LuaValue
  globalEnv : Nat
  panic : Option PanicHandler
  closed : Bool
  gcRunning : Bool
  gcPause : Nat
  gcStepMul : Nat
  gcCount : Nat
  stdLibsLoaded : Bool
deriving DecidableEq, Repr

/-- Translation of `lua_gettop`: the current depth of the evaluation stack. -/
def lua_gettop (vm : LuaVM) : Nat := vm.stack.length

/-- Translation of `lua_settop(L, n)`: truncate the stack to depth `n`, padding with nils
if `n` exceeds the current depth. -/
def lua_settop (n : Nat) (vm : LuaVM) : LuaVM :=
  { vm with stack := vm.stack.take n ++ List.replicate (n - vm.stack.length) LuaValue.nil }

namespace ErrorHandler

/-- Modelled from the spec: `ErrorHandler::instance().getHandler` of
`kaguya/error_handler.hpp` (not under `src/`): look up the handler
associated with a VM identity. -/
def getHandler (id : Nat) (reg : Registry) : Option Handler :=
  reg.lookup id

/-- Modelled from the spec: `ErrorHandler::instance().registerHandler` of
`kaguya/error_handler.hpp` (not under `src/`): installs or replaces, at
most one handler per identity. -/
def registerHandler (id : Nat) (h : Handler) (reg : Registry) : Registry :=
  (id, h) :: reg.filter (fun p => p.1 != id)

/-- Modelled from the spec: `ErrorHandler::instance().handle` of
`kaguya/error_handler.hpp` (not under `src/`): reads the error message
left on top of the VM's stack by a failed protected call, invokes the
registered handler with `(statusCode, message)`, then pops that message.
Returns the VM with the message popped and the stderr lines produced. -/
def handle (reg : Registry) (status : Nat) (vm : LuaVM) : LuaVM × List String :=
  let msg := match vm.stack.getLast? with
             | some (.errmsg m) => m
             | _ => ""
  let out := match getHandler vm.id reg with
             | some h => h.run status msg
             | none => []
  ({ vm with stack := vm.stack.dropLast }, out)

end ErrorHandler

/-- Outcome of a compile step (`luaL_loadstring` / `luaL_loadfile`),
supplied as an oracle: success, or failure with a status code and the
error message the compiler leaves on the stack.  The Lua API guarantees a
non-zero status on failure. -/
inductive CompileOutcome where
  | ok
  | fail (code : Nat) (msg : String)
deriving DecidableEq, Repr

/-- The status code the compile step returns. -/
def CompileOutcome.status : CompileOutcome → Nat
  | .ok => 0
  | .fail code _ => code

/-- The Lua API contract: a failed compile returns a non-zero status. -/
def CompileOutcome.wf : CompileOutcome → Prop
  | .ok => True
  | .fail code _ => code ≠ 0

instance : DecidablePred CompileOutcome.wf := by
  intro oc; unfold CompileOutcome.wf; cases oc <;> infer_instance

/-- Outcome of a protected call (`lua_pcall_wrap`), supplied as an oracle:
success with the list of results the chunk returns, or failure with a
status code and the error message left on the stack. -/
inductive PCallOutcome where
  | ok (results : List LuaValue)
  | fail (code : Nat) (msg : String)
deriving DecidableEq, Repr

/-- The status code the protected call returns. -/
def PCallOutcome.status : PCallOutcome → Nat
  | .ok _ => 0
  | .fail code _ => code

/-- The Lua API contract: a failed protected call returns a non-zero
status. -/
def PCallOutcome.wf : PCallOutcome → Prop
  | .ok _ => True
  | .fail code _ => code ≠ 0

instance : DecidablePred PCallOutcome.wf := by
  intro pc; unfold PCallOutcome.wf; cases pc <;> infer_instance

/-- Observable API events of one wrapper operation, used to state which
calls were made and in which order. -/
inductive Event where
  | loadstring (src : String)
  | loadfile (path : String)
  | envPush
  | setupvalue
  | setfenv
  | pcall (envid : Nat)
  | handled (status : Nat)
  | requiref (name : String)
deriving DecidableEq, Repr

/-- Translation of `luaL_loadstring(L, str)`: on success pushes the compiled chunk, whose
visible global namespace is the true global table; on failure pushes the
error message.  Returns the new VM state and the status code. -/
def luaL_loadstring (vm : LuaVM) (str : String) (oc : CompileOutcome) : LuaVM × Nat :=
  match oc with
  | .ok => ({ vm with stack := vm.stack ++ [.chunk vm.globalEnv] }, 0)
  | .fail code msg => ({ vm with stack := vm.stack ++ [.errmsg msg] }, code)

/-- Translation of `luaL_loadfile(L, file)`: identical stack protocol to
`luaL_loadstring`, compiling from a file. -/
def luaL_loadfile (vm : LuaVM) (file : String) (oc : CompileOutcome) : LuaVM × Nat :=
  match oc with
  | .ok => ({ vm with stack := vm.stack ++ [.chunk vm.globalEnv] }, 0)
  | .fail code msg => ({ vm with stack := vm.stack ++ [.errmsg msg] }, code)

/-- Translation of `lua_setupvalue(L, -2, 1)` as used in `dostring`/`dofile`: pops the
value on top of the stack and installs it as the first upvalue (`_ENV`)
of the chunk just below it. -/
def lua_setupvalue_env (vm : LuaVM) : LuaVM :=
  match vm.stack.dropLast.getLast?, vm.stack.getLast? with
  | some (.chunk _), some (.table e) =>
      { vm with stack := vm.stack.dropLast.dropLast ++ [.chunk e] }
  | _, _ => { vm with stack := vm.stack.dropLast }

/-- Translation of `lua_setfenv(L, -2)` as used in `dostring`/`dofile` on Lua < 5.2: pops
the table on top of the stack and makes it the environment of the chunk
just below it.  Same net effect on this model as
`lua_setupvalue_env`; the two are distinguished by the emitted `Event`. -/
def lua_setfenv_env (vm : LuaVM) : LuaVM :=
  match vm.stack.dropLast.getLast?, vm.stack.getLast? with
  | some (.chunk _), some (.table e) =>
      { vm with stack := vm.stack.dropLast.dropLast ++ [.chunk e] }
  | _, _ => { vm with stack := vm.stack.dropLast }

/-- Translation of `lua_pcall_wrap(L, 0, LUA_MULTRET)`: pops the chunk on top of the
stack and invokes it in protected mode with zero arguments.  On success
(status 0) the chunk's results are pushed; on failure the error message
is pushed.  The emitted `Event.pcall envid` records the identity of the
global namespace the invoked chunk saw. -/
def lua_pcall_wrap (vm : LuaVM) (pc : PCallOutcome) : LuaVM × Nat × Event :=
  let envid := match vm.stack.getLast? with
               | some (.chunk e) => e
               | _ => 0
  match pc with
  | .ok results => ({ vm with stack := vm.stack.dropLast ++ results }, 0, .pcall envid)
  | .fail code msg => ({ vm with stack := vm.stack.dropLast ++ [.errmsg msg] }, code, .pcall envid)

/-- A `kaguya::LuaTable` argument as used by `dostring`/`dofile`: either a
nil reference (`none`, the default `LuaTable()`), or a reference to the
table with the given identity.  `isNilref()` is `Option.isNone`. -/
abbrev LuaTable := Option Nat

/-- One entry of `LoadLibs`: a library name paired with its registrar
(`lua_CFunction`).  The registrar is external code; it is abstracted by
whether it fails. -/
structure LoadLib where
  name : String
  registrarFails : Bool
deriving DecidableEq, Repr

/-- Translation of `AllocatorFunction`'s view of a host allocator object: `allocate` and
`reallocate` return the new pointer or `none` (null) on failure;
`deallocate` returns nothing and is observed through the event trace. -/
structure Allocator where
  allocate : Nat → Option Nat
  reallocate : Nat → Nat → Option Nat

/-- Calls made by the allocation callback, observable in its trace. -/
inductive AllocEvent where
  | rawRealloc (ptr : Option Nat) (nsize : Nat)
  | deallocate (ptr : Option Nat) (osize : Nat)
  | reallocate (ptr : Nat) (nsize : Nat)
  | allocate (nsize : Nat)
deriving DecidableEq, Repr

/-- Translation of `AllocatorFunction<Allocator>(ud, ptr, osize, nsize)` from
`state.hpp`: the callback handed to `lua_newstate`.  `rawRealloc` models
`std::realloc` (external C library); `ud` is the opaque userdata, null or
a pointer to the allocator object; `ptr` is the existing block or null.
Returns the resulting pointer (null = `none`) and the calls made. -/
def AllocatorFunction (rawRealloc : Option Nat → Nat → Option Nat)
    (ud : Option Allocator) (ptr : Option Nat) (osize nsize : Nat) :
    Option Nat × List AllocEvent :=
  match ud with
  | none => (rawRealloc ptr nsize, [.rawRealloc ptr nsize])
  | some allocator =>
    if nsize = 0 then
      (none, [.deallocate ptr osize])
    else
      match ptr with
      | some p => (allocator.reallocate p nsize, [.reallocate p nsize])
      | none => (allocator.allocate nsize, [.allocate nsize])

/-- The host heap primitives `DefaultAllocator` delegates to
(`std::malloc`, `std::realloc`; `std::free` has no return value). -/
structure HostHeap where
  malloc : Nat → Option Nat
  reallocRaw : Nat → Nat → Option Nat

/-- Translation of `DefaultAllocator` from `state.hpp`: `allocate` is `std::malloc`,
`reallocate` is `std::realloc`. -/
def DefaultAllocator (h : HostHeap) : Allocator :=
  { allocate := h.malloc, reallocate := h.reallocRaw }

/-- Translation of `luaL_openlibs(L)`: registers all standard libraries; balances the
stack itself. -/
def luaL_openlibs (vm : LuaVM) : LuaVM :=
  { vm with stdLibsLoaded := true }

/-- Translation of `luaL_newstate()` / `lua_newstate(...)`: a fresh VM with identity
`id`, empty stack, no panic handler, collector running. -/
def luaL_newstate (id : Nat) : LuaVM :=
  { id := id, stack := [], globalEnv := 0, panic := none, closed := false,
    gcRunning := true, gcPause := 200, gcStepMul := 200, gcCount := 0,
    stdLibsLoaded := false }

/-- Translation of `lua_atpanic(L, &default_panic)`: install the panic trap. -/
def lua_atpanic (vm : LuaVM) (p : PanicHandler) : LuaVM :=
  { vm with panic := some p }

/-- Selector for `lua_gc`. -/
inductive GCOpt where
  | GCCOLLECT | GCSTEP | GCCOUNT | GCSETPAUSE | GCSETSTEPMUL
  | GCRESTART | GCSTOP | GCISRUNNING
deriving DecidableEq, Repr

/-- Translation of `lua_gc(L, what, data)`: the VM's single collector-control entry
point.  Never touches the evaluation stack.  Collector internals
(`GCCOLLECT`, `GCSTEP`) are out of scope; only their control surface is
modelled. -/
def lua_gc (vm : LuaVM) (what : GCOpt) (data : Nat) : LuaVM × Nat :=
  match what with
  | .GCCOLLECT => (vm, 0)
  | .GCSTEP => (vm, 0)
  | .GCCOUNT => (vm, vm.gcCount)
  | .GCSETPAUSE => ({ vm with gcPause := data }, vm.gcPause)
  | .GCSETSTEPMUL => ({ vm with gcStepMul := data }, vm.gcStepMul)
  | .GCRESTART => ({ vm with gcRunning := true }, 0)
  | .GCSTOP => ({ vm with gcRunning := false }, 0)
  | .GCISRUNNING => (vm, if vm.gcRunning then 1 else 0)

/-- Translation of `kaguya::State`: the wrapper.  `vm` is the pointed-to `lua_State`;
`created_` is the ownership flag; `hasAllocator` models a non-null
`allocator_holder_`. -/
structure State where
  vm : LuaVM
  created_ : Bool
  hasAllocator : Bool
deriving DecidableEq, Repr

namespace State

/-- Translation of `State::init()`: if no handler is registered for this VM identity,
register the default `stderror_out` (via `setErrorHandler`, which is
stack-neutral); then `reg_functor_destructor` (external, registers a
destructor metatable; no effect on the observables modelled here). -/
def init (vm : LuaVM) (reg : Registry) : Registry :=
  match ErrorHandler.getHandler vm.id reg with
  | some _ => reg
  | none => ErrorHandler.registerHandler vm.id .stderror_out reg

/-- Translation of `State::State()`: fresh VM via `luaL_newstate`, `created_ = true`,
panic trap installed, `init()`, then `openlibs()`. -/
def mkDefault (id : Nat) (reg : Registry) : State × Registry :=
  let vm0 := lua_atpanic (luaL_newstate id) .default_panicfn
  let reg1 := init vm0 reg
  ({ vm := luaL_openlibs vm0, created_ := true, hasAllocator := false }, reg1)

/-- Translation of `State::State(shared_ptr<Allocator>)`: fresh VM via `lua_newstate`
with `AllocatorFunction`, `created_ = true`, panic trap installed,
`init()`, then `openlibs()`. -/
def mkAlloc (id : Nat) (reg : Registry) : State × Registry :=
  let vm0 := lua_atpanic (luaL_newstate id) .default_panicfn
  let reg1 := init vm0 reg
  ({ vm := luaL_openlibs vm0, created_ := true, hasAllocator := true }, reg1)

/-- Translation of `State::~State()`: `lua_close` the VM iff `created_`.  Returns the VM
after destruction and whether `lua_close` was called. -/
def destruct (s : State) : LuaVM × Bool :=
  if s.created_ then ({ s.vm with closed := true }, true) else (s.vm, false)

/-- Translation of `State::setErrorHandler`: scoped stack guard (stack-neutral), then
register the handler for this VM identity. -/
def setErrorHandler (s : State) (reg : Registry) (h : Handler) : State × Registry :=
  let saved := lua_gettop s.vm
  let reg1 := ErrorHandler.registerHandler s.vm.id h reg
  ({ s with vm := lua_settop saved s.vm }, reg1)

/-- Translation of `State::openlibs()`: scoped stack guard around `luaL_openlibs`. -/
def openlibsAll (s : State) : State :=
  let saved := lua_gettop s.vm
  { s with vm := lua_settop saved (luaL_openlibs s.vm) }

/-- Translation of `State::openlib(lib)`: scoped stack guard around
`luaL_requiref(L, lib.first.c_str(), lib.second, 1)`, which registers the
library and leaves a copy of the module on the stack (restored by the
guard).  The registrar's own success or failure does not alter the
wrapper's control flow. -/
def openlib (s : State) (lib : LoadLib) : State × List Event :=
  let saved := lua_gettop s.vm
  let vm1 := { s.vm with stack := s.vm.stack ++ [.libval lib.name] }
  ({ s with vm := lua_settop saved vm1 }, [.requiref lib.name])

/-- Translation of `State::openlibs(libs)`: the `for (it = libs.begin(); it != libs.end();
++it) openlib(*it)` loop — `openlib` on each entry, in iteration order,
unconditionally. -/
def openlibsList (s : State) (libs : List LoadLib) : State × List Event :=
  match libs with
  | [] => (s, [])
  | lib :: rest =>
    let r := openlib s lib
    let r2 := openlibsList r.1 rest
    (r2.1, r.2 ++ r2.2)

/-- Translation of `State::State(const LoadLibs&)`: fresh VM, `created_ = true`, panic
trap, `init()`, then `openlibs(libs)`. -/
def mkLibs (id : Nat) (libs : List LoadLib) (reg : Registry) : State × Registry :=
  let vm0 := lua_atpanic (luaL_newstate id) .default_panicfn
  let reg1 := init vm0 reg
  let s0 : State := { vm := vm0, created_ := true, hasAllocator := false }
  ((openlibsList s0 libs).1, reg1)

/-- Translation of `State::State(const LoadLibs&, shared_ptr<Allocator>)`: fresh VM with
custom allocator, `created_ = true`, panic trap, `init()`, then
`openlibs(libs)`. -/
def mkLibsAlloc (id : Nat) (libs : List LoadLib) (reg : Registry) : State × Registry :=
  let vm0 := lua_atpanic (luaL_newstate id) .default_panicfn
  let reg1 := init vm0 reg
  let s0 : State := { vm := vm0, created_ := true, hasAllocator := true }
  ((openlibsList s0 libs).1, reg1)

/-- Translation of `State::State(lua_State*)`: adopt an existing VM; `created_ = false`;
only `init()` runs — no `lua_atpanic`, no library loading. -/
def adopt (vm : LuaVM) (reg : Registry) : State × Registry :=
  ({ vm := vm, created_ := false, hasAllocator := false }, init vm reg)

/-- Translation of `State::dostring(const char* str, const LuaTable& env)`: scoped stack
guard; compile; on failure route through `ErrorHandler::handle` and
return false; otherwise, if `env` is not a nil reference, push it and
bind it to the chunk (`lua_setupvalue` when `LUA_VERSION_NUM >= 502`,
`lua_setfenv` otherwise — a preprocessor choice, here the `ver`
parameter); run the chunk with `lua_pcall_wrap`; on failure route through
the handler and return false; otherwise return true.  Also returns the
stderr lines produced and the event trace. -/
def dostring (ver : Nat) (s : State) (reg : Registry) (str : String)
    (oc : CompileOutcome) (pc : PCallOutcome) (env : LuaTable) :
    State × Bool × List String × List Event :=
  let saved := lua_gettop s.vm
  let r1 := luaL_loadstring s.vm str oc
  if r1.2 ≠ 0 then
    let r2 := ErrorHandler.handle reg r1.2 r1.1
    ({ s with vm := lua_settop saved r2.1 }, false, r2.2,
      [.loadstring str, .handled r1.2])
  else
    let bound : LuaVM × List Event :=
      match env with
      | none => (r1.1, [])
      | some e =>
        let pushed := { r1.1 with stack := r1.1.stack ++ [.table e] }
        if 502 ≤ ver then (lua_setupvalue_env pushed, [.envPush, .setupvalue])
        else (lua_setfenv_env pushed, [.envPush, .setfenv])
    let r3 := lua_pcall_wrap bound.1 pc
    if r3.2.1 ≠ 0 then
      let r4 := ErrorHandler.handle reg r3.2.1 r3.1
      ({ s with vm := lua_settop saved r4.1 }, false, r4.2,
        [.loadstring str] ++ bound.2 ++ [r3.2.2, .handled r3.2.1])
    else
      ({ s with vm := lua_settop saved r3.1 }, true, [],
        [.loadstring str] ++ bound.2 ++ [r3.2.2])

/-- Translation of `State::dofile(const char* file, const LuaTable& env)`: same structure
as `dostring`, compiling from a file via `luaL_loadfile`. -/
def dofile (ver : Nat) (s : State) (reg : Registry) (file : String)
    (oc : CompileOutcome) (pc : PCallOutcome) (env : LuaTable) :
    State × Bool × List String × List Event :=
  let saved := lua_gettop s.vm
  let r1 := luaL_loadfile s.vm file oc
  if r1.2 ≠ 0 then
    let r2 := ErrorHandler.handle reg r1.2 r1.1
    ({ s with vm := lua_settop saved r2.1 }, false, r2.2,
      [.loadfile file, .handled r1.2])
  else
    let bound : LuaVM × List Event :=
      match env with
      | none => (r1.1, [])
      | some e =>
        let pushed := { r1.1 with stack := r1.1.stack ++ [.table e] }
        if 502 ≤ ver then (lua_setupvalue_env pushed, [.envPush, .setupvalue])
        else (lua_setfenv_env pushed, [.envPush, .setfenv])
    let r3 := lua_pcall_wrap bound.1 pc
    if r3.2.1 ≠ 0 then
      let r4 := ErrorHandler.handle reg r3.2.1 r3.1
      ({ s with vm := lua_settop saved r4.1 }, false, r4.2,
        [.loadfile file] ++ bound.2 ++ [r3.2.2, .handled r3.2.1])
    else
      ({ s with vm := lua_settop saved r3.1 }, true, [],
        [.loadfile file] ++ bound.2 ++ [r3.2.2])

/-- Translation of `State::dostring(const std::string& str, const LuaTable& env)`:
delegates to the `const char*` overload on `str.c_str()`. -/
def dostringStd (ver : Nat) (s : State) (reg : Registry) (str : String)
    (oc : CompileOutcome) (pc : PCallOutcome) (env : LuaTable) :
    State × Bool × List String × List Event :=
  dostring ver s reg str oc pc env

/-- Translation of `State::dofile(const std::string& file, const LuaTable& env)`:
delegates to the `const char*` overload on `file.c_str()`. -/
def dofileStd (ver : Nat) (s : State) (reg : Registry) (file : String)
    (oc : CompileOutcome) (pc : PCallOutcome) (env : LuaTable) :
    State × Bool × List String × List Event :=
  dofile ver s reg file oc pc env

/-- Translation of `State::operator()(const std::string& str)`: `dostring(str)` with the
default environment argument `LuaTable()` (a nil reference). -/
def callOpStd (ver : Nat) (s : State) (reg : Registry) (str : String)
    (oc : CompileOutcome) (pc : PCallOutcome) :
    State × Bool × List String × List Event :=
  dostringStd ver s reg str oc pc none

/-- Translation of `State::operator()(const char* str)`: `dostring(str)` with the default
environment argument `LuaTable()` (a nil reference). -/
def callOpC (ver : Nat) (s : State) (reg : Registry) (str : String)
    (oc : CompileOutcome) (pc : PCallOutcome) :
    State × Bool × List String × List Event :=
  dostring ver s reg str oc pc none

end State

/-- The reference object returned by `State::operator[]`: remembers the
stack index of the pushed global table, the key, and the stack top
observed at entry (for later restoration when the reference is
released). -/
structure TableKeyReference where
  table_index : Nat
  key : String
  stack_top : Nat
deriving DecidableEq, Repr

namespace State

/-- Translation of `State::operator[](const std::string&)`: records the stack top, pushes
the global table (`lua_type_traits<GlobalTable>::push`), and returns a
`TableKeyReference` holding the table's stack slot, the key and the
recorded top.  The stack is NOT restored before returning; restoration is
deferred to the returned reference. -/
def index (s : State) (key : String) : State × TableKeyReference :=
  let stack_top := lua_gettop s.vm
  let vm1 := { s.vm with stack := s.vm.stack ++ [.table s.vm.globalEnv] }
  let table_index := stack_top + 1
  ({ s with vm := vm1 },
   { table_index := table_index, key := key, stack_top := stack_top })

end State

/-- Translation of `State::GCType`: holds only the `lua_State*`; every operation is a
thin delegation to `lua_gc`. -/
structure GCType where
  state_ : LuaVM
deriving DecidableEq, Repr

namespace GCType

/-- Translation of `GCType::collect()`: `lua_gc(L, LUA_GCCOLLECT, 0)`. -/
def collect (g : GCType) : GCType := ⟨(lua_gc g.state_ .GCCOLLECT 0).1⟩

/-- Translation of `GCType::step()`: `lua_gc(L, LUA_GCSTEP, 0) == 1`. -/
def step (g : GCType) : GCType × Bool :=
  let r := lua_gc g.state_ .GCSTEP 0
  (⟨r.1⟩, r.2 == 1)

/-- Translation of `GCType::step(int size)`: `lua_gc(L, LUA_GCSTEP, size) == 1`. -/
def stepSize (g : GCType) (size : Nat) : GCType × Bool :=
  let r := lua_gc g.state_ .GCSTEP size
  (⟨r.1⟩, r.2 == 1)

/-- Translation of `GCType::count()`: `lua_gc(L, LUA_GCCOUNT, 0)`. -/
def count (g : GCType) : Nat := (lua_gc g.state_ .GCCOUNT 0).2

/-- Translation of `GCType::steppause(int value)`: `lua_gc(L, LUA_GCSETPAUSE, value)`. -/
def steppause (g : GCType) (value : Nat) : GCType × Nat :=
  let r := lua_gc g.state_ .GCSETPAUSE value
  (⟨r.1⟩, r.2)

/-- Translation of `GCType::setstepmul(int value)`: `lua_gc(L, LUA_GCSETSTEPMUL, value)`. -/
def setstepmul (g : GCType) (value : Nat) : GCType × Nat :=
  let r := lua_gc g.state_ .GCSETSTEPMUL value
  (⟨r.1⟩, r.2)

/-- Translation of `GCType::enable()`: `lua_gc(L, LUA_GCRESTART, 0)`. -/
def enable (g : GCType) : GCType := ⟨(lua_gc g.state_ .GCRESTART 0).1⟩

/-- Translation of `GCType::disable()`: `lua_gc(L, LUA_GCSTOP, 0)`. -/
def disable (g : GCType) : GCType := ⟨(lua_gc g.state_ .GCSTOP 0).1⟩

/-- Translation of `GCType::restart()`: alias for `enable()`. -/
def restart (g : GCType) : GCType := enable g

/-- Translation of `GCType::stop()`: alias for `disable()`. -/
def stop (g : GCType) : GCType := disable g

/-- Translation of `GCType::isenabled()`: exists only under `#if LUA_VERSION_NUM >= 502`,
where it is `lua_gc(L, LUA_GCISRUNNING, 0) != 0`.  On earlier versions
the method is absent from the class, modelled as `none`. -/
def isenabled (ver : Nat) (g : GCType) : Option Bool :=
  if 502 ≤ ver then some ((lua_gc g.state_ .GCISRUNNING 0).2 != 0) else none

/-- Translation of `GCType::isrunning()`: alias for `isenabled()`, same `#if`. -/
def isrunning (ver : Nat) (g : GCType) : Option Bool := isenabled ver g

end GCType

namespace State

/-- Translation of `State::gc()`: the GC control surface over this VM. -/
def gc (s : State) : GCType := ⟨s.vm⟩

/-- Translation of `State::garbageCollect()`: `gc().collect()`. -/
def garbageCollect (s : State) : State := { s with vm := (gc s).collect.state_ }

/-- Translation of `State::useKBytes()`: `size_t(gc().count())`. -/
def useKBytes (s : State) : Nat := (gc s).count

end State

/-- Translation of `ScriptUnit` result of `State::loadstring` (a `LuaFunction`
reference): valid (invocable) or the nil reference returned on compile
failure. -/
inductive ScriptUnit where
  | valid
  | invalidRef
deriving DecidableEq, Repr

namespace State

/-- Modelled from the spec: `LuaFunction::loadstring` of
`kaguya/lua_ref_function.hpp` (not under `src/`), called by
`State::loadstring`.  Per the spec, the public entry point acquires a
stack guard and restores the entry top on every exit path; on compile
failure the error is routed through the handler and a nil reference is
returned, otherwise a reference to the compiled function is returned. -/
def loadstring (s : State) (reg : Registry) (str : String)
    (oc : CompileOutcome) : State × ScriptUnit × List String :=
  let saved := lua_gettop s.vm
  let r1 := luaL_loadstring s.vm str oc
  if r1.2 ≠ 0 then
    let r2 := ErrorHandler.handle reg r1.2 r1.1
    ({ s with vm := lua_settop saved r2.1 }, .invalidRef, r2.2)
  else
    ({ s with vm := lua_settop saved r1.1 }, .valid, [])

/-- Modelled from the spec: `LuaFunction::loadfile` of
`kaguya/lua_ref_function.hpp` (not under `src/`), called by
`State::loadfile`; same contract as `loadstring`, compiling from a
file. -/
def loadfileRef (s : State) (reg : Registry) (file : String)
    (oc : CompileOutcome) : State × ScriptUnit × List String :=
  let saved := lua_gettop s.vm
  let r1 := luaL_loadfile s.vm file oc
  if r1.2 ≠ 0 then
    let r2 := ErrorHandler.handle reg r1.2 r1.1
    ({ s with vm := lua_settop saved r2.1 }, .invalidRef, r2.2)
  else
    ({ s with vm := lua_settop saved r1.1 }, .valid, [])

end State

/-! ## Helper lemmas -/

/-- The stderr lines the registered handler (if any) produces on
`(status, msg)`. -/
def handlerOutput (reg : Registry) (id : Nat) (status : Nat) (msg : String) : List String :=
  match ErrorHandler.getHandler id reg with
  | some h => h.run status msg
  | none => []

theorem settop_append (vm : LuaVM) (e : List LuaValue) :
    lua_settop (lua_gettop vm) { vm with stack := vm.stack ++ e } = vm := by
  simp [lua_settop, lua_gettop, List.take_left]

theorem handle_errmsg (reg : Registry) (status : Nat) (vm : LuaVM) (m : String) :
    ErrorHandler.handle reg status { vm with stack := vm.stack ++ [.errmsg m] } =
      (vm, handlerOutput reg vm.id status m) := by
  simp [ErrorHandler.handle, handlerOutput]

/-- The environment-binding mechanism is fixed by the build-time VM
version alone: `lua_setupvalue` on Lua 5.2 and newer, `lua_setfenv`
otherwise. -/
def envMechanism (ver : Nat) : Event :=
  if 502 ≤ ver then .setupvalue else .setfenv

theorem dostring_compilefail (ver : Nat) (s : State) (reg : Registry) (str : String)
    (c : Nat) (msg : String) (pc : PCallOutcome) (env : LuaTable) :
    State.dostring ver s reg str (.fail (c + 1) msg) pc env =
      (s, false, handlerOutput reg s.vm.id (c + 1) msg,
       [.loadstring str, .handled (c + 1)]) := by
  simp [State.dostring, luaL_loadstring, ErrorHandler.handle, handlerOutput,
    ErrorHandler.getHandler, lua_settop, lua_gettop, List.take_left]

theorem dostring_ok_noenv_ok (ver : Nat) (s : State) (reg : Registry) (str : String)
    (rs : List LuaValue) :
    State.dostring ver s reg str .ok (.ok rs) none =
      (s, true, [], [.loadstring str, .pcall s.vm.globalEnv]) := by
  simp [State.dostring, luaL_loadstring, lua_pcall_wrap, lua_settop, lua_gettop,
    List.take_left]

theorem dostring_ok_noenv_fail (ver : Nat) (s : State) (reg : Registry) (str : String)
    (c : Nat) (m : String) :
    State.dostring ver s reg str .ok (.fail (c + 1) m) none =
      (s, false, handlerOutput reg s.vm.id (c + 1) m,
       [.loadstring str, .pcall s.vm.globalEnv, .handled (c + 1)]) := by
  simp [State.dostring, luaL_loadstring, lua_pcall_wrap, ErrorHandler.handle,
    handlerOutput, ErrorHandler.getHandler, lua_settop, lua_gettop, List.take_left]

theorem dostring_ok_env_ok (ver : Nat) (s : State) (reg : Registry) (str : String)
    (rs : List LuaValue) (e : Nat) :
    State.dostring ver s reg str .ok (.ok rs) (some e) =
      (s, true, [], [.loadstring str, .envPush, envMechanism ver, .pcall e]) := by
  by_cases hv : 502 ≤ ver <;>
    simp [State.dostring, luaL_loadstring, lua_pcall_wrap, lua_setupvalue_env,
      lua_setfenv_env, envMechanism, hv, lua_settop, lua_gettop, List.take_left]

theorem dostring_ok_env_fail (ver : Nat) (s : State) (reg : Registry) (str : String)
    (c : Nat) (m : String) (e : Nat) :
    State.dostring ver s reg str .ok (.fail (c + 1) m) (some e) =
      (s, false, handlerOutput reg s.vm.id (c + 1) m,
       [.loadstring str, .envPush, envMechanism ver, .pcall e, .handled (c + 1)]) := by
  by_cases hv : 502 ≤ ver <;>
    simp [State.dostring, luaL_loadstring, lua_pcall_wrap, lua_setupvalue_env,
      lua_setfenv_env, envMechanism, hv, ErrorHandler.handle, handlerOutput,
      ErrorHandler.getHandler, lua_settop, lua_gettop, List.take_left]

theorem dofile_compilefail (ver : Nat) (s : State) (reg : Registry) (file : String)
    (c : Nat) (msg : String) (pc : PCallOutcome) (env : LuaTable) :
    State.dofile ver s reg file (.fail (c + 1) msg) pc env =
      (s, false, handlerOutput reg s.vm.id (c + 1) msg,
       [.loadfile file, .handled (c + 1)]) := by
  simp [State.dofile, luaL_loadfile, ErrorHandler.handle, handlerOutput,
    ErrorHandler.getHandler, lua_settop, lua_gettop, List.take_left]

theorem dofile_ok_noenv_ok (ver : Nat) (s : State) (reg : Registry) (file : String)
    (rs : List LuaValue) :
    State.dofile ver s reg file .ok (.ok rs) none =
      (s, true, [], [.loadfile file, .pcall s.vm.globalEnv]) := by
  simp [State.dofile, luaL_loadfile, lua_pcall_wrap, lua_settop, lua_gettop,
    List.take_left]

theorem dofile_ok_noenv_fail (ver : Nat) (s : State) (reg : Registry) (file : String)
    (c : Nat) (m : String) :
    State.dofile ver s reg file .ok (.fail (c + 1) m) none =
      (s, false, handlerOutput reg s.vm.id (c + 1) m,
       [.loadfile file, .pcall s.vm.globalEnv, .handled (c + 1)]) := by
  simp [State.dofile, luaL_loadfile, lua_pcall_wrap, ErrorHandler.handle,
    handlerOutput, ErrorHandler.getHandler, lua_settop, lua_gettop, List.take_left]

theorem dofile_ok_env_ok (ver : Nat) (s : State) (reg : Registry) (file : String)
    (rs : List LuaValue) (e : Nat) :
    State.dofile ver s reg file .ok (.ok rs) (some e) =
      (s, true, [], [.loadfile file, .envPush, envMechanism ver, .pcall e]) := by
  by_cases hv : 502 ≤ ver <;>
    simp [State.dofile, luaL_loadfile, lua_pcall_wrap, lua_setupvalue_env,
      lua_setfenv_env, envMechanism, hv, lua_settop, lua_gettop, List.take_left]

theorem dofile_ok_env_fail (ver : Nat) (s : State) (reg : Registry) (file : String)
    (c : Nat) (m : String) (e : Nat) :
    State.dofile ver s reg file .ok (.fail (c + 1) m) (some e) =
      (s, false, handlerOutput reg s.vm.id (c + 1) m,
       [.loadfile file, .envPush, envMechanism ver, .pcall e, .handled (c + 1)]) := by
  by_cases hv : 502 ≤ ver <;>
    simp [State.dofile, luaL_loadfile, lua_pcall_wrap, lua_setupvalue_env,
      lua_setfenv_env, envMechanism, hv, ErrorHandler.handle, handlerOutput,
      ErrorHandler.getHandler, lua_settop, lua_gettop, List.take_left]

theorem settop_self (vm : LuaVM) : lua_settop (lua_gettop vm) vm = vm := by
  simp [lua_settop, lua_gettop]

theorem dostring_restores (ver : Nat) (s : State) (reg : Registry) (str : String)
    (oc : CompileOutcome) (pc : PCallOutcome) (env : LuaTable)
    (hoc : oc.wf) (hpc : pc.wf) :
    (State.dostring ver s reg str oc pc env).1 = s := by
  cases oc with
  | fail c m =>
      have hc : c ≠ 0 := hoc
      obtain ⟨k, rfl⟩ : ∃ k, c = k + 1 := ⟨c - 1, by omega⟩
      simp [dostring_compilefail]
  | ok =>
      cases pc with
      | ok rs =>
          cases env with
          | none => simp [dostring_ok_noenv_ok]
          | some e => simp [dostring_ok_env_ok]
      | fail c m =>
          have hc : c ≠ 0 := hpc
          obtain ⟨k, rfl⟩ : ∃ k, c = k + 1 := ⟨c - 1, by omega⟩
          cases env with
          | none => simp [dostring_ok_noenv_fail]
          | some e => simp [dostring_ok_env_fail]

theorem dofile_restores (ver : Nat) (s : State) (reg : Registry) (file : String)
    (oc : CompileOutcome) (pc : PCallOutcome) (env : LuaTable)
    (hoc : oc.wf) (hpc : pc.wf) :
    (State.dofile ver s reg file oc pc env).1 = s := by
  cases oc with
  | fail c m =>
      have hc : c ≠ 0 := hoc
      obtain ⟨k, rfl⟩ : ∃ k, c = k + 1 := ⟨c - 1, by omega⟩
      simp [dofile_compilefail]
  | ok =>
      cases pc with
      | ok rs =>
          cases env with
          | none => simp [dofile_ok_noenv_ok]
          | some e => simp [dofile_ok_env_ok]
      | fail c m =>
          have hc : c ≠ 0 := hpc
          obtain ⟨k, rfl⟩ : ∃ k, c = k + 1 := ⟨c - 1, by omega⟩
          cases env with
          | none => simp [dofile_ok_noenv_fail]
          | some e => simp [dofile_ok_env_fail]

theorem loadstring_restores (s : State) (reg : Registry) (str : String)
    (oc : CompileOutcome) (hoc : oc.wf) :
    (State.loadstring s reg str oc).1 = s := by
  cases oc with
  | ok => simp [State.loadstring, luaL_loadstring, lua_settop, lua_gettop, List.take_left]
  | fail c m =>
      have hc : c ≠ 0 := hoc
      obtain ⟨k, rfl⟩ : ∃ k, c = k + 1 := ⟨c - 1, by omega⟩
      simp [State.loadstring, luaL_loadstring, ErrorHandler.handle, lua_settop,
        lua_gettop, List.take_left]

theorem loadfileRef_restores (s : State) (reg : Registry) (file : String)
    (oc : CompileOutcome) (hoc : oc.wf) :
    (State.loadfileRef s reg file oc).1 = s := by
  cases oc with
  | ok => simp [State.loadfileRef, luaL_loadfile, lua_settop, lua_gettop, List.take_left]
  | fail c m =>
      have hc : c ≠ 0 := hoc
      obtain ⟨k, rfl⟩ : ∃ k, c = k + 1 := ⟨c - 1, by omega⟩
      simp [State.loadfileRef, luaL_loadfile, ErrorHandler.handle, lua_settop,
        lua_gettop, List.take_left]

theorem openlib_state (s : State) (lib : LoadLib) : (State.openlib s lib).1 = s := by
  simp [State.openlib, lua_settop, lua_gettop, List.take_left]

theorem openlib_events (s : State) (lib : LoadLib) :
    (State.openlib s lib).2 = [.requiref lib.name] := rfl

theorem openlibsList_state (libs : List LoadLib) :
    ∀ s : State, (State.openlibsList s libs).1 = s := by
  induction libs with
  | nil => intro s; rfl
  | cons lib rest ih =>
      intro s
      simp only [State.openlibsList]
      rw [openlib_state]
      exact ih s

theorem openlibsList_events (libs : List LoadLib) :
    ∀ s : State, (State.openlibsList s libs).2 =
      libs.map (fun l => Event.requiref l.name) := by
  induction libs with
  | nil => intro s; rfl
  | cons lib rest ih =>
      intro s
      simp only [State.openlibsList, List.map_cons]
      rw [openlib_state, openlib_events, ih s]
      rfl

theorem init_getHandler (vm : LuaVM) (reg : Registry) :
    ErrorHandler.getHandler vm.id (State.init vm reg) =
      some ((ErrorHandler.getHandler vm.id reg).getD .stderror_out) := by
  unfold State.init
  cases hc : ErrorHandler.getHandler vm.id reg with
  | some h => simp [hc]
  | none =>
      simp [hc, ErrorHandler.getHandler, ErrorHandler.registerHandler, List.lookup]

/-- A concrete wrapper state used to instantiate universally quantified
theorems: a freshly created VM with identity 7. -/
def sampleState : State :=
  { vm := luaL_newstate 7, created_ := true, hasAllocator := false }

/-! ## Claim theorems -/

/-- C4: the destructor calls `lua_close` on the VM if and only if the
handle was constructed in a fresh (owning) mode: `destruct` reports a
`lua_close` call exactly when `created_` is true; when `created_` is
false (in particular for any handle built by `adopt`) the destructor
performs no operation on the VM, returning it unchanged — so an adopted
VM remains usable after the wrapper is destroyed — while every fresh
construction mode yields a handle whose destruction closes the VM. -/
theorem C4_destructor_closes_iff_created :
    (∀ s : State, (State.destruct s).2 = s.created_) ∧
    (∀ (v : LuaVM) (hA : Bool),
      State.destruct { vm := v, created_ := false, hasAllocator := hA } = (v, false)) ∧
    (∀ (vm : LuaVM) (reg : Registry),
      State.destruct (State.adopt vm reg).1 = (vm, false)) ∧
    (∀ (id : Nat) (reg : Registry),
      (State.destruct (State.mkDefault id reg).1).2 = true ∧
      (State.destruct (State.mkDefault id reg).1).1.closed = true) ∧
    (∀ (id : Nat) (reg : Registry),
      (State.destruct (State.mkAlloc id reg).1).2 = true ∧
      (State.destruct (State.mkAlloc id reg).1).1.closed = true) ∧
    (∀ (id : Nat) (libs : List LoadLib) (reg : Registry),
      (State.destruct (State.mkLibs id libs reg).1).2 = true ∧
      (State.destruct (State.mkLibs id libs reg).1).1.closed = true) ∧
    (∀ (id : Nat) (libs : List LoadLib) (reg : Registry),
      (State.destruct (State.mkLibsAlloc id libs reg).1).2 = true ∧
      (State.destruct (State.mkLibsAlloc id libs reg).1).1.closed = true) := by
  refine ⟨?_, ?_, ?_, ?_, ?_, ?_, ?_⟩
  · intro s; unfold State.destruct; cases h : s.created_ <;> simp [h]
  · intro v hA; rfl
  · intro vm reg; rfl
  · intro id reg; exact ⟨rfl, rfl⟩
  · intro id reg; exact ⟨rfl, rfl⟩
  · intro id libs reg
    simp only [State.mkLibs, State.destruct, openlibsList_state]
    exact ⟨rfl, rfl⟩
  · intro id libs reg
    simp only [State.mkLibsAlloc, State.destruct, openlibsList_state]
    exact ⟨rfl, rfl⟩

/-- C5: at construction time, in every construction mode, the handler
registered for the VM's identity afterwards is the pre-existing one if
one was associated with that identity, and the default `stderror_out`
otherwise; a registry that already maps the identity is left entirely
unchanged (a pre-existing handler is never replaced); and the default
handler writes exactly the literal message followed by a newline to the
standard error stream. -/
theorem C5_default_handler_iff_absent :
    (∀ (id : Nat) (reg : Registry),
      ErrorHandler.getHandler id (State.mkDefault id reg).2 =
        some ((ErrorHandler.getHandler id reg).getD .stderror_out)) ∧
    (∀ (id : Nat) (reg : Registry),
      ErrorHandler.getHandler id (State.mkAlloc id reg).2 =
        some ((ErrorHandler.getHandler id reg).getD .stderror_out)) ∧
    (∀ (id : Nat) (libs : List LoadLib) (reg : Registry),
      ErrorHandler.getHandler id (State.mkLibs id libs reg).2 =
        some ((ErrorHandler.getHandler id reg).getD .stderror_out)) ∧
    (∀ (id : Nat) (libs : List LoadLib) (reg : Registry),
      ErrorHandler.getHandler id (State.mkLibsAlloc id libs reg).2 =
        some ((ErrorHandler.getHandler id reg).getD .stderror_out)) ∧
    (∀ (vm : LuaVM) (reg : Registry),
      ErrorHandler.getHandler vm.id (State.adopt vm reg).2 =
        some ((ErrorHandler.getHandler vm.id reg).getD .stderror_out)) ∧
    (∀ (id : Nat) (h : Handler) (reg : Registry),
      (State.mkDefault id ((id, h) :: reg)).2 = (id, h) :: reg) ∧
    (∀ (vm : LuaVM) (h : Handler) (reg : Registry),
      (State.adopt vm ((vm.id, h) :: reg)).2 = (vm.id, h) :: reg) ∧
    (∀ (status : Nat) (msg : String),
      Handler.stderror_out.run status msg = [msg ++ "\n"]) := by
  have hinit := init_getHandler
  refine ⟨?_, ?_, ?_, ?_, ?_, ?_, ?_, ?_⟩
  · intro id reg; exact hinit (lua_atpanic (luaL_newstate id) .default_panicfn) reg
  · intro id reg; exact hinit (lua_atpanic (luaL_newstate id) .default_panicfn) reg
  · intro id libs reg; exact hinit (lua_atpanic (luaL_newstate id) .default_panicfn) reg
  · intro id libs reg; exact hinit (lua_atpanic (luaL_newstate id) .default_panicfn) reg
  · intro vm reg; exact hinit vm reg
  · intro id h reg
    simp [State.mkDefault, State.init, ErrorHandler.getHandler, List.lookup,
      lua_atpanic, luaL_newstate]
  · intro vm h reg
    simp [State.adopt, State.init, ErrorHandler.getHandler, List.lookup]
  · intro status msg; rfl

/-- C6: the allocation callback `AllocatorFunction`: with null userdata it
delegates to the host's raw `realloc`; with an allocator and
`nsize = 0` it frees the block of size `osize` through the allocator and
returns null; with an existing pointer and non-zero `nsize` it returns
the allocator's reallocation; with a null pointer and non-zero `nsize`
it returns a fresh allocation.  The callback is a total function —
failure is signalled only by a null (`none`) result. -/
theorem C6_allocator_function_cases :
    (∀ (rawRealloc : Option Nat → Nat → Option Nat) (ptr : Option Nat) (osize nsize : Nat),
      AllocatorFunction rawRealloc none ptr osize nsize =
        (rawRealloc ptr nsize, [.rawRealloc ptr nsize])) ∧
    (∀ (rawRealloc : Option Nat → Nat → Option Nat) (a : Allocator) (ptr : Option Nat) (osize : Nat),
      AllocatorFunction rawRealloc (some a) ptr osize 0 =
        (none, [.deallocate ptr osize])) ∧
    (∀ (rawRealloc : Option Nat → Nat → Option Nat) (a : Allocator) (p osize n : Nat),
      AllocatorFunction rawRealloc (some a) (some p) osize (n + 1) =
        (a.reallocate p (n + 1), [.reallocate p (n + 1)])) ∧
    (∀ (rawRealloc : Option Nat → Nat → Option Nat) (a : Allocator) (osize n : Nat),
      AllocatorFunction rawRealloc (some a) none osize (n + 1) =
        (a.allocate (n + 1), [.allocate (n + 1)])) := by
  refine ⟨fun _ _ _ _ => rfl, fun _ _ _ _ => rfl, ?_, ?_⟩
  · intro rawRealloc a p osize n
    simp [AllocatorFunction]
  · intro rawRealloc a osize n
    simp [AllocatorFunction]

/-- C9: `openlibs(libs)` attempts every entry, in list order: its call
trace is exactly one `requiref` per entry, in the order of the list, and
the trace is unchanged when the success/failure of every entry's
registrar is flipped — a failure in one entry does not prevent
subsequent entries from being attempted. -/
theorem C9_openlibs_attempts_all_in_order :
    (∀ (s : State) (libs : List LoadLib),
      (State.openlibsList s libs).2 = libs.map (fun l => Event.requiref l.name)) ∧
    (∀ (s : State) (libs : List LoadLib),
      (State.openlibsList s (libs.map (fun l => { l with registrarFails := !l.registrarFails }))).2 =
        (State.openlibsList s libs).2) := by
  constructor
  · intro s libs; exact openlibsList_events libs s
  · intro s libs
    rw [openlibsList_events, openlibsList_events, List.map_map]
    simp [Function.comp]

/-- C10: the `std::string` overloads of `dostring` and `dofile` are
definitionally the `const char*` overloads applied to the same text and
environment, and both call operators are `dostring` with the default
(absent, nil-reference) environment. -/
theorem C10_overloads_delegate (ver : Nat) (s : State) (reg : Registry)
    (str file : String) (oc : CompileOutcome) (pc : PCallOutcome) (env : LuaTable) :
    State.dostringStd ver s reg str oc pc env = State.dostring ver s reg str oc pc env ∧
    State.dofileStd ver s reg file oc pc env = State.dofile ver s reg file oc pc env ∧
    State.callOpStd ver s reg str oc pc = State.dostring ver s reg str oc pc none ∧
    State.callOpC ver s reg str oc pc = State.dostring ver s reg str oc pc none :=
  ⟨rfl, rfl, rfl, rfl⟩

/-- C1 counterexample: the claim fails for global-namespace indexing.
On the concrete state `sampleState` (empty stack), `operator[]` returns
with the evaluation stack one entry deeper than it was on entry — the
pushed global table is left on the stack, its restoration deferred to
the returned reference — so the depth observed immediately after the
operation returns does not equal the depth on entry. -/
theorem C1_index_depth_counterexample :
    lua_gettop (State.index sampleState "x").1.vm ≠ lua_gettop sampleState.vm := by
  decide

/-- C1 (amended): every public operation of the VM handle — script
running (`dostring`/`dofile`), script loading, library loading
(`openlib`, `openlibs`), error-handler registration, and every GC-control
operation — leaves the Lua evaluation stack at exactly the depth observed
on entry, on every exit path (success, compile failure, runtime failure
routed through the handler), EXCEPT global-namespace indexing
(`operator[]`), which returns with the stack exactly one entry deeper
(the pushed global table) while recording the entry depth in the
returned reference for later restoration.  The hypotheses are the Lua
API contract that failed compiles and failed protected calls return
non-zero status codes. -/
theorem C1_stack_discipline (ver : Nat) (s : State) (reg : Registry)
    (oc : CompileOutcome) (pc : PCallOutcome) (hoc : oc.wf) (hpc : pc.wf) :
    (∀ str env, (State.dostring ver s reg str oc pc env).1 = s) ∧
    (∀ file env, (State.dofile ver s reg file oc pc env).1 = s) ∧
    (∀ str, (State.loadstring s reg str oc).1 = s) ∧
    (∀ file, (State.loadfileRef s reg file oc).1 = s) ∧
    (∀ lib, (State.openlib s lib).1 = s) ∧
    (∀ libs, (State.openlibsList s libs).1 = s) ∧
    (State.openlibsAll s).vm.stack = s.vm.stack ∧
    (∀ h, (State.setErrorHandler s reg h).1 = s) ∧
    (∀ g : GCType,
      g.collect.state_.stack = g.state_.stack ∧
      g.step.1.state_.stack = g.state_.stack ∧
      (∀ n, (g.stepSize n).1.state_.stack = g.state_.stack) ∧
      g.enable.state_.stack = g.state_.stack ∧
      g.disable.state_.stack = g.state_.stack ∧
      (∀ v, (g.steppause v).1.state_.stack = g.state_.stack) ∧
      (∀ v, (g.setstepmul v).1.state_.stack = g.state_.stack)) ∧
    (∀ key, lua_gettop (State.index s key).1.vm = lua_gettop s.vm + 1 ∧
      (State.index s key).2.stack_top = lua_gettop s.vm) := by
  refine ⟨?_, ?_, ?_, ?_, ?_, ?_, ?_, ?_, ?_, ?_⟩
  · intro str env; exact dostring_restores ver s reg str oc pc env hoc hpc
  · intro file env; exact dofile_restores ver s reg file oc pc env hoc hpc
  · intro str; exact loadstring_restores s reg str oc hoc
  · intro file; exact loadfileRef_restores s reg file oc hoc
  · intro lib; exact openlib_state s lib
  · intro libs; exact openlibsList_state libs s
  · simp [State.openlibsAll, luaL_openlibs, lua_settop, lua_gettop]
  · intro h; simp [State.setErrorHandler, settop_self]
  · intro g
    exact ⟨rfl, rfl, fun n => rfl, rfl, rfl, fun v => rfl, fun v => rfl⟩
  · intro key
    constructor
    · simp [State.index, lua_gettop]
    · rfl

/-- Witness for C1 (amended): the `dostring` conjunct applied at a
concrete state, script, environment and pair of successful outcomes. -/
theorem C1_stack_discipline_witness :
    (State.dostring 502 sampleState [] "return 1+1" .ok (.ok [.nil]) none).1 =
      sampleState :=
  (C1_stack_discipline 502 sampleState [] .ok (.ok [.nil])
    (by decide) (by decide)).1 "return 1+1" none

/-- C2: `dostring`/`dofile` return true iff both the compile step and
the protected call return status zero; a non-zero compile status routes
through the handler with exactly that status and exits early — the trace
is exactly `[load, handled status]`, containing no environment-push, no
environment-binding and no protected-call event; a non-zero protected-
call status likewise routes through the handler with that status and the
operation returns false.  Hypotheses: the Lua API returns non-zero
status on failure. -/
theorem C2_run_reports_and_returns (ver : Nat) (s : State) (reg : Registry)
    (src : String) (oc : CompileOutcome) (pc : PCallOutcome) (env : LuaTable)
    (hoc : oc.wf) (hpc : pc.wf) :
    ((State.dostring ver s reg src oc pc env).2.1 = true ↔
      (oc.status = 0 ∧ pc.status = 0)) ∧
    ((State.dofile ver s reg src oc pc env).2.1 = true ↔
      (oc.status = 0 ∧ pc.status = 0)) ∧
    (oc.status ≠ 0 →
      (State.dostring ver s reg src oc pc env).2.2.2 =
        [.loadstring src, .handled oc.status] ∧
      (State.dofile ver s reg src oc pc env).2.2.2 =
        [.loadfile src, .handled oc.status]) ∧
    (oc.status = 0 → pc.status ≠ 0 →
      Event.handled pc.status ∈ (State.dostring ver s reg src oc pc env).2.2.2 ∧
      Event.handled pc.status ∈ (State.dofile ver s reg src oc pc env).2.2.2) := by
  cases oc with
  | fail c m =>
      have hc : c ≠ 0 := hoc
      obtain ⟨k, rfl⟩ : ∃ k, c = k + 1 := ⟨c - 1, by omega⟩
      simp [dostring_compilefail, dofile_compilefail, CompileOutcome.status]
  | ok =>
      cases pc with
      | ok rs =>
          cases env with
          | none =>
              simp [dostring_ok_noenv_ok, dofile_ok_noenv_ok,
                CompileOutcome.status, PCallOutcome.status]
          | some e =>
              simp [dostring_ok_env_ok, dofile_ok_env_ok,
                CompileOutcome.status, PCallOutcome.status]
      | fail c m =>
          have hc : c ≠ 0 := hpc
          obtain ⟨k, rfl⟩ : ∃ k, c = k + 1 := ⟨c - 1, by omega⟩
          cases env with
          | none =>
              simp [dostring_ok_noenv_fail, dofile_ok_noenv_fail,
                CompileOutcome.status, PCallOutcome.status]
          | some e =>
              simp [dostring_ok_env_fail, dofile_ok_env_fail,
                CompileOutcome.status, PCallOutcome.status]

/-- Witness for C2: a successful compile and protected call on a
concrete state returns true. -/
theorem C2_run_witness :
    (State.dostring 502 sampleState [] "return 1+1" .ok (.ok [.nil]) none).2.1 =
      true :=
  ((C2_run_reports_and_returns 502 sampleState [] "return 1+1" .ok (.ok [.nil])
      none (by decide) (by decide)).1).mpr (by decide)

/-- C3 counterexample: the adopting constructor does NOT install the
panic trap.  Adopting a concrete VM that has no panic handler yields a
wrapper whose VM still has none, whereas a fresh-construction mode
installs `default_panic` — so adoption does not apply the panic trap
"exactly as the fresh-construction modes do", falsifying the claim. -/
theorem C3_adopt_counterexample :
    (State.adopt (luaL_newstate 9) []).1.vm.panic = none ∧
    (State.mkDefault 9 []).1.vm.panic = some PanicHandler.default_panicfn := by
  decide

/-- C3 (amended): constructing a handle by adopting an already-existing
`lua_State` takes no ownership (`created_ = false`) and leaves the VM —
including its panic-handler slot — entirely untouched (no panic trap is
installed, even when absent); it still applies the error-handler
defaulting of the fresh modes: afterwards the handler for the VM's
identity is the pre-existing one if present, `stderror_out` otherwise. -/
theorem C3_adopt_behavior (vm : LuaVM) (reg : Registry) :
    (State.adopt vm reg).1.created_ = false ∧
    (State.adopt vm reg).1.vm = vm ∧
    ErrorHandler.getHandler vm.id (State.adopt vm reg).2 =
      some ((ErrorHandler.getHandler vm.id reg).getD .stderror_out) :=
  ⟨rfl, rfl, init_getHandler vm reg⟩

/-- C7: with a nil environment reference no substitution is performed —
the trace has no environment events and the chunk is invoked seeing the
true global table; with a non-nil table, the chunk is invoked seeing
exactly that table, bound before invocation by the mechanism
`envMechanism ver`, which is a function of the build-time VM version
alone (`lua_setupvalue` iff `502 ≤ ver`, `lua_setfenv` otherwise) and
never a per-call choice; and substitution leaves the VM (in particular
its true global table binding) unchanged. -/
theorem C7_env_binding (ver : Nat) (s : State) (reg : Registry)
    (str file : String) (rs : List LuaValue) (e : Nat) :
    ((State.dostring ver s reg str .ok (.ok rs) none).2.2.2 =
      [.loadstring str, .pcall s.vm.globalEnv]) ∧
    ((State.dofile ver s reg file .ok (.ok rs) none).2.2.2 =
      [.loadfile file, .pcall s.vm.globalEnv]) ∧
    ((State.dostring ver s reg str .ok (.ok rs) (some e)).2.2.2 =
      [.loadstring str, .envPush, envMechanism ver, .pcall e]) ∧
    ((State.dofile ver s reg file .ok (.ok rs) (some e)).2.2.2 =
      [.loadfile file, .envPush, envMechanism ver, .pcall e]) ∧
    (envMechanism ver = if 502 ≤ ver then Event.setupvalue else Event.setfenv) ∧
    (envMechanism 501 = Event.setfenv ∧ envMechanism 502 = Event.setupvalue ∧
      envMechanism 504 = Event.setupvalue) ∧
    ((State.dostring ver s reg str .ok (.ok rs) (some e)).1.vm = s.vm) ∧
    ((State.dofile ver s reg file .ok (.ok rs) (some e)).1.vm = s.vm) := by
  refine ⟨?_, ?_, ?_, ?_, rfl, by decide, ?_, ?_⟩ <;>
    simp [dostring_ok_noenv_ok, dofile_ok_noenv_ok, dostring_ok_env_ok,
      dofile_ok_env_ok]

/-- C8 counterexample: the claim is false on VM versions without a query
primitive.  On Lua 5.1 (`ver = 501`) the wrapper provides no
enabled-state query at all — `isenabled` does not exist (`none`), and
`GCType` holds nothing but the `lua_State*`, so no locally tracked
enable/disable state exists to answer from — whereas on 5.2 the query
exists and answers. -/
theorem C8_isenabled_counterexample :
    GCType.isenabled 501 ⟨luaL_newstate 3⟩ = none ∧
    GCType.isenabled 502 ⟨luaL_newstate 3⟩ = some true := by
  decide

/-- C8 (amended): the enabled-state query exists only on VM versions with
a query primitive (`502 ≤ ver`), where it delegates to
`lua_gc(L, LUA_GCISRUNNING, 0)` — answering from the VM's collector
state, including right after `enable()`/`disable()`; `isrunning` is the
same query; on versions below 502 no query is provided at all. -/
theorem C8_isenabled_delegates (ver : Nat) (g : GCType) (hver : 502 ≤ ver) :
    GCType.isenabled ver g = some g.state_.gcRunning ∧
    GCType.isenabled ver g.enable = some true ∧
    GCType.isenabled ver g.disable = some false ∧
    GCType.isrunning ver g = GCType.isenabled ver g ∧
    (∀ v2 : Nat, v2 < 502 → GCType.isenabled v2 g = none) := by
  refine ⟨?_, ?_, ?_, rfl, ?_⟩
  · simp only [GCType.isenabled, lua_gc, hver, if_true]
    cases h : g.state_.gcRunning <;> simp [h]
  · simp [GCType.isenabled, GCType.enable, lua_gc, hver]
  · simp [GCType.isenabled, GCType.disable, lua_gc, hver]
  · intro v2 hv2
    simp [GCType.isenabled, show ¬(502 ≤ v2) from by omega]

/-- Witness for C8 (amended): on Lua 5.3 with a fresh VM (collector
running) the query answers true. -/
theorem C8_isenabled_witness :
    GCType.isenabled 503 ⟨luaL_newstate 4⟩ = some true :=
  ((C8_isenabled_delegates 503 ⟨luaL_newstate 4⟩ (by decide)).1).trans (by decide)

end Kaguya
